import Mathlib

/-!
Shallow embedding of the plot windowing/caching engine in `src/gui/plot.rs`
(crate `sam`), together with theorems settling the specification claims.

Machine floats (`f64`) are modelled by `ℚ`; `Instant` is modelled by a
rational timestamp, with `Instant::duration_since` saturating at zero as the
standard library does.  Rust vectors become Lean lists and stateful methods
become explicit state-passing functions.
-/

namespace Sam

/-- Stand-in for the external `FlightMode` enum from the telemetry crate
(constructors as used in `src/gui.rs`); only decidable equality is used. -/
inductive FlightMode where
  | Idle
  | HardwareArmed
  | Armed
  | Flight
  | RecoveryDrogue
  | RecoveryMain
  | Landed
deriving DecidableEq, Repr

/-- `VehicleState` (`src/state.rs`): the plot code reads only `mode` directly;
all other telemetry fields are reached through per-line extraction callbacks,
so we keep two representative numeric fields for concrete instances. -/
structure VehicleState where
  mode : Option FlightMode := none
  altitude : Option ℚ := none
  battery_voltage : Option ℚ := none
deriving DecidableEq, Repr

/-- A data source's `vehicle_states()` sequence: `(time, state)` pairs
(first component models the `Instant`).  `len` is `List.length`, reverse
iteration is `List.reverse`. -/
abbrev DataSource := List (ℚ × VehicleState)

/-- A plotted point `[f64; 2]`: `(x, y)` = `(time, value)`. -/
abbrev Sample := ℚ × ℚ

/-- `egui_plot::PlotBounds`: `min`/`max` corners; the windowing code uses only
the x components but compares whole bounds for equality. -/
structure PlotBounds where
  min : ℚ × ℚ
  max : ℚ × ℚ
deriving DecidableEq, Repr

/-- `plot_time` (`plot.rs:19`): seconds since the first vehicle state, `0` for
an empty source.  `duration_since` saturates at zero for earlier instants. -/
def plotTime (x : ℚ) (src : DataSource) : ℚ :=
  match src with
  | [] => 0
  | (t0, _) :: _ => max (x - t0) 0

/-- Per-line cache (`PlotCacheLine`, `plot.rs:28`).  The extraction callback
is modelled as a pure function (the Rust closures only read the state). -/
structure PlotCacheLine where
  name : String
  color : Nat
  callback : VehicleState → Option ℚ
  data : List Sample
  stats : Option (ℚ × ℚ × ℚ × ℚ)
  lastBounds : Option PlotBounds
  lastView : List Sample

/-- `PlotCacheLine::new` (`plot.rs:39`). -/
def PlotCacheLine.new (name : String) (color : Nat)
    (cb : VehicleState → Option ℚ) : PlotCacheLine :=
  { name := name, color := color, callback := cb,
    data := [], stats := none, lastBounds := none, lastView := [] }

/-- `PlotCacheLine::update_cache` (`plot.rs:51`): map the suffix after
`keep_first` through `plot_time` and the callback, dropping `None` values;
extend the cache when appending, replace it otherwise. -/
def updateCache (l : PlotCacheLine) (src : DataSource) (keepFirst : Nat) :
    PlotCacheLine :=
  let newData := (src.drop keepFirst).filterMap
    (fun tv => (l.callback tv.2).map (fun y => (plotTime tv.1 src, y)))
  if keepFirst > 0 then { l with data := l.data ++ newData }
  else { l with data := newData }

/-- `PlotCacheLine::clear_cache` (`plot.rs:64`): `self.data.truncate(0)` —
note that it touches only `data`. -/
def clearCache (l : PlotCacheLine) : PlotCacheLine :=
  { l with data := [] }

/-- `slice::partition_point`: for a slice partitioned by `p` (all `true`
elements before all `false` ones, as is the case for a time-sorted cache and
a threshold predicate) Rust's binary search returns the length of the
initial run of `true` elements, which is what we compute here. -/
def partitionPoint (l : List Sample) (p : Sample → Bool) : Nat :=
  (l.takeWhile p).length

/-- The index pair `(imin, imax)` computed by `data_for_bounds`
(`plot.rs:82`–`86`): binary-search bounds, lower index decremented
(saturating), upper index incremented and clamped to `len - 1`. -/
def windowIndices (data : List Sample) (bounds : PlotBounds) : Nat × Nat :=
  let xmin := bounds.min.1
  let xmax := bounds.max.1
  let imin := partitionPoint data (fun d => decide (d.1 < xmin))
  let imax := imin + partitionPoint (data.drop imin) (fun d => decide (d.1 < xmax))
  (imin - 1, min (imax + 1) (data.length - 1))

/-- The slice `self.data[imin..imax]` taken by `data_for_bounds` (`plot.rs:88`). -/
def windowSlice (data : List Sample) (bounds : PlotBounds) : List Sample :=
  ((data.drop (windowIndices data bounds).1).take
    ((windowIndices data bounds).2 - (windowIndices data bounds).1))

/-- `PlotCacheLine::data_for_bounds` (`plot.rs:68`): returns the view and the
updated line state. -/
def dataForBounds (l : PlotCacheLine) (bounds : PlotBounds) (src : DataSource) :
    List Sample × PlotCacheLine :=
  if src.length = 0 ∨ l.data.isEmpty then
    ([], { l with lastBounds := none, stats := none })
  else if l.lastBounds ≠ some bounds then
    let view := windowSlice l.data bounds
    (view, { l with lastView := view, lastBounds := some bounds, stats := none })
  else
    (l.lastView, l)

/-- `Iterator::reduce` with `f64::min` over the view's y values (`plot.rs:102`):
`None` exactly on an empty list. -/
def reduceMin : List ℚ → Option ℚ
  | [] => none
  | y :: ys => some (ys.foldl min y)

/-- `Iterator::reduce` with `f64::max` over the view's y values (`plot.rs:103`). -/
def reduceMax : List ℚ → Option ℚ
  | [] => none
  | y :: ys => some (ys.foldl max y)

/-- The statistics tuple computed by `PlotCacheLine::stats` (`plot.rs:98`–`104`)
over a view: `(mean, variance, min, max)`.  The source stores
`std_dev = sqrt(variance)`; the square root is irrational in general, so the
embedding records the variance (the claims only inspect presence/absence and
the mean/min/max).  `None` exactly when the view is empty (the `.unwrap()`s
in the source are reached only under the non-empty guard). -/
def statsOfList (v : List Sample) : Option (ℚ × ℚ × ℚ × ℚ) :=
  let ys := v.map (fun i => i.2)
  match reduceMin ys, reduceMax ys with
  | some mn, some mx =>
    let count : ℚ := ys.length
    let mean := ys.sum / count
    let var := (ys.map (fun y => (y - mean) ^ 2)).sum / count
    some (mean, var, mn, mx)
  | _, _ => none

/-- `PlotCacheLine::stats` (`plot.rs:96`): recompute lazily when the stored
statistics are absent and the cached view is non-empty. -/
def lineStats (l : PlotCacheLine) : Option (ℚ × ℚ × ℚ × ℚ) × PlotCacheLine :=
  if l.stats.isNone ∧ 0 < l.lastView.length then
    match statsOfList l.lastView with
    | some s => (some s, { l with stats := some s })
    | none => (l.stats, l)
  else
    (l.stats, l)

/-- The per-plot cache (`PlotCache`, `plot.rs:113`): one line cache per
signal, the mode-transition list, and the `(last time, count)` fingerprint. -/
structure PlotCache where
  lines : List PlotCacheLine
  modeTransitions : List (ℚ × FlightMode)
  resetOnNextDraw : Bool
  cachedState : Option (ℚ × Nat)

/-- `PlotCache::new` (`plot.rs:124`). -/
def PlotCache.new : PlotCache :=
  { lines := [], modeTransitions := [], resetOnNextDraw := false,
    cachedState := none }

/-- `PlotCache::add_line` (`plot.rs:133`). -/
def addLine (c : PlotCache) (name : String) (color : Nat)
    (cb : VehicleState → Option ℚ) : PlotCache :=
  { c with lines := c.lines ++ [PlotCacheLine.new name color cb] }

/-- The state evolution of the `scan` in `update_mode_transition_cache`
(`plot.rs:142`): the last known mode after consuming a list of states
(updated only on states whose extracted mode is present and different). -/
def scanState (st : Option FlightMode) : List (ℚ × VehicleState) → Option FlightMode
  | [] => st
  | (_, vs) :: rest =>
    match vs.mode with
    | none => scanState st rest
    | some m => if some m ≠ st then scanState (some m) rest else scanState st rest

/-- The transition events emitted by the `scan` in
`update_mode_transition_cache` (`plot.rs:139`–`150`): for every state whose
extracted mode is present and differs from the running last-known mode, emit
`(plot_time, mode)` and update the running mode. -/
def modeScan (src : DataSource) (st : Option FlightMode) :
    List (ℚ × VehicleState) → List (ℚ × FlightMode)
  | [] => []
  | (t, vs) :: rest =>
    match vs.mode with
    | none => modeScan src st rest
    | some m =>
      if some m ≠ st then (plotTime t src, m) :: modeScan src (some m) rest
      else modeScan src st rest

/-- `PlotCache::update_mode_transition_cache` (`plot.rs:137`): on an append
(`keep_first > 0`) carry the last recorded transition's mode forward and
extend, otherwise rescan from the unknown mode and replace. -/
def updateModeTransitionCache (c : PlotCache) (src : DataSource)
    (keepFirst : Nat) : PlotCache :=
  let lastMode := if keepFirst > 0 then c.modeTransitions.getLast?.map Prod.snd
    else none
  let newData := modeScan src lastMode (src.drop keepFirst)
  if keepFirst > 0 then { c with modeTransitions := c.modeTransitions ++ newData }
  else { c with modeTransitions := newData }

/-- The `keep_first` computation of `update_caches_if_necessary`
(`plot.rs:179`–`192`): the previous count when the source grew and the state
at the previous last position still carries the remembered timestamp,
otherwise `0` (full rebuild). -/
def computeKeepFirst (c : PlotCache) (src : DataSource) : Nat :=
  let oldLen := (c.cachedState.map Prod.snd).getD 0
  if h : oldLen < src.length ∧ 0 < oldLen then
    let previousLast := (src.get ⟨oldLen - 1, by omega⟩).1
    match c.cachedState with
    | some (t, _) => if t = previousLast then oldLen else 0
    | none => 0
  else 0

/-- `PlotCache::update_caches_if_necessary` (`plot.rs:159`): clear everything
on an empty source; no-op on an equal fingerprint; otherwise update every
line and the transition list with the computed `keep_first` and remember the
new fingerprint. -/
def updateCachesIfNecessary (c : PlotCache) (src : DataSource) : PlotCache :=
  if h : src.length = 0 then
    { c with modeTransitions := [], lines := c.lines.map clearCache,
             cachedState := none }
  else
    let lastT := (src.getLast (by intro he; rw [he] at h; exact h rfl)).1
    let newState := some (lastT, src.length)
    if newState = c.cachedState then c
    else
      let keepFirst := computeKeepFirst c src
      let c1 := { c with lines := c.lines.map (fun l => updateCache l src keepFirst) }
      let c2 := updateModeTransitionCache c1 src keepFirst
      { c2 with cachedState := newState }

/-- `PlotCache::plot_lines` (`plot.rs:200`): update the caches, then query
every line's window, then (when requested) its statistics.  The output keeps,
per line, the plotted points and the statistics attached to the legend. -/
def plotLines (c : PlotCache) (bounds : PlotBounds) (showStats : Bool)
    (src : DataSource) :
    List (List Sample × Option (ℚ × ℚ × ℚ × ℚ)) × PlotCache :=
  let c1 := updateCachesIfNecessary c src
  let outs := c1.lines.map (fun l =>
    let dl := dataForBounds l bounds src
    let sl := if showStats then lineStats dl.2 else (none, dl.2)
    ((dl.1, sl.1), sl.2))
  (outs.map Prod.fst, { c1 with lines := outs.map Prod.snd })

/-- `SharedPlotState` (`plot.rs:235`): interaction state shared by all linked
plots.  `endTime` models the `end` field (`end` is reserved in Lean). -/
structure SharedPlotState where
  start : ℚ
  endTime : ℚ
  attached_to_edge : Bool
  view_width : ℚ
  reset_on_next_draw : Bool
  box_dragging : Bool
  show_stats : Bool
deriving DecidableEq, Repr

/-- `SharedPlotState::process_zoom` (`plot.rs:266`): divide the view width by
the x zoom factor and schedule a reset when currently attached. -/
def process_zoom (s : SharedPlotState) (zoomDelta : ℚ × ℚ) : SharedPlotState :=
  { s with view_width := s.view_width / zoomDelta.1,
           reset_on_next_draw := s.attached_to_edge }

/-- `SharedPlotState::process_box_dragging` (`plot.rs:274`). -/
def process_box_dragging (s : SharedPlotState) (b : Bool) : SharedPlotState :=
  { s with box_dragging := s.box_dragging || b }

/-- `SharedPlotState::process_drag_released` (`plot.rs:278`). -/
def process_drag_released (s : SharedPlotState) (released : Bool) : SharedPlotState :=
  if released && s.box_dragging then
    { s with attached_to_edge := false, box_dragging := false }
  else s

/-- The reset handling at the top of `plot_telemetry` (`plot.rs:370`–`375`):
when either one-shot flag is set, clear both flags and re-attach; returns the
cache's flag and the shared state. -/
def drawResetStep (cacheReset : Bool) (s : SharedPlotState) :
    Bool × SharedPlotState :=
  if cacheReset || s.reset_on_next_draw then
    (false, { s with reset_on_next_draw := false, attached_to_edge := true })
  else (cacheReset, s)

/-- One redraw of `plot_telemetry` with no user interaction (`plot.rs:370`,
`409`–`410`): the reset step, then `process_drag_released(false)` and
`process_box_dragging(false)`; zoom/scroll/drag/double-click branches are not
taken. -/
def idleRedraw (cacheReset : Bool) (s : SharedPlotState) :
    Bool × SharedPlotState :=
  let r := drawResetStep cacheReset s
  let s2 := process_drag_released r.2 false
  let s3 := process_box_dragging s2 false
  (r.1, s3)

/-- The successive prefixes obtained by appending the chunks one at a time to
an accumulator: `prefixAccum a [c₁, c₂, …] = [a++c₁, a++c₁++c₂, …]`. -/
def prefixAccum (acc : DataSource) : List DataSource → List DataSource
  | [] => []
  | ch :: rest => (acc ++ ch) :: prefixAccum (acc ++ ch) rest

/-- A cache that has never been filled (or has been cleared): no fingerprint,
no transitions, all line sample stores empty. -/
def FreshCache (c : PlotCache) : Prop :=
  c.cachedState = none ∧ c.modeTransitions = [] ∧ ∀ l ∈ c.lines, l.data = []

/-- The spec's characterization of the TransitionTracker (§4.2): from a
stream of extracted `(time, mode)` events, keep exactly the entries whose
mode differs from the last kept mode, the initial unknown state counting as
different from any first value. -/
def specTransitions (st : Option FlightMode) :
    List (ℚ × FlightMode) → List (ℚ × FlightMode)
  | [] => []
  | (t, m) :: rest =>
    if some m ≠ st then (t, m) :: specTransitions (some m) rest
    else specTransitions st rest

/-! ### Concrete instances used by counterexamples and witnesses -/

/-- A vehicle state carrying only an altitude reading. -/
def vsAlt (q : ℚ) : VehicleState := { altitude := some q }

/-- A vehicle state carrying only a flight mode. -/
def vsMode (m : FlightMode) : VehicleState := { mode := some m }

/-- The altitude extraction callback (as registered per line in
`src/gui/tabs/plot.rs`). -/
def cbAlt : VehicleState → Option ℚ := fun vs => vs.altitude

/-- A single-line plot cache as built by `PlotState::new().line(...)`. -/
def cacheAlt : PlotCache := addLine PlotCache.new "altitude" 0 cbAlt

/-- A line cache holding four samples at times `0, 2, 4, 6`. -/
def lineC1 : PlotCacheLine :=
  { PlotCacheLine.new "altitude" 0 cbAlt with
    data := [(0, 0), (2, 20), (4, 40), (6, 60)] }

/-- Bounds `[3, 5]`, strictly inside the time range `[0, 6]` of `lineC1`. -/
def bC1 : PlotBounds := { min := (3, 0), max := (5, 1) }

/-- The source whose cached samples are `lineC1.data`. -/
def srcC1 : DataSource :=
  [(0, vsAlt 0), (2, vsAlt 20), (4, vsAlt 40), (6, vsAlt 60)]

/-- A two-snapshot source. -/
def srcTwo : DataSource := [(0, vsAlt 1), (1, vsAlt 2)]

/-- Bounds covering the whole of `srcTwo`. -/
def bWide : PlotBounds := { min := (-1, 0), max := (5, 1) }

/-- A line cache as it stands after a window query: cached samples, a cached
view and cached statistics. -/
def lineC4 : PlotCacheLine :=
  { PlotCacheLine.new "altitude" 0 cbAlt with
    data := [(0, 1)], lastView := [(0, 1)], lastBounds := some bWide,
    stats := some (1, 0, 1, 1) }

/-- First redraw source for the stale-statistics scenario. -/
def srcC5a : DataSource := [(0, vsAlt 1), (1, vsAlt 3)]

/-- Second redraw source: one more snapshot appended, inside the bounds. -/
def srcC5b : DataSource := srcC5a ++ [(2, vsAlt 5)]

/-- A one-snapshot source. -/
def srcOne : DataSource := [(0, vsAlt 1)]

/-- Wide bounds containing every sample of `srcC5b`. -/
def bC5 : PlotBounds := { min := (-10, -10), max := (10, 10) }

/-- Five snapshots with modes `[A, A, B, B, C]` at `t = 0..4`. -/
def srcModes : DataSource :=
  [(0, vsMode FlightMode.Idle), (1, vsMode FlightMode.Idle),
   (2, vsMode FlightMode.Flight), (3, vsMode FlightMode.Flight),
   (4, vsMode FlightMode.Landed)]

/-- Chunks for the incremental-append witness. -/
def chunksW : List DataSource :=
  [[(0, vsMode FlightMode.Idle)], [(1, vsMode FlightMode.Flight), (2, vsAlt 7)]]

/-- A cache state whose fingerprint matches `srcTwo`. -/
def cacheC6 : PlotCache :=
  { lines := [{ PlotCacheLine.new "altitude" 0 cbAlt with data := [(0, 1), (1, 2)] }],
    modeTransitions := [], resetOnNextDraw := false,
    cachedState := some (1, 2) }

/-- An attached, idle shared state. -/
def sharedAttached : SharedPlotState :=
  { start := 0, endTime := 0, attached_to_edge := true, view_width := 10,
    reset_on_next_draw := false, box_dragging := false, show_stats := false }

/-- A shared state in the middle of a box-zoom drag. -/
def sharedBoxDrag : SharedPlotState :=
  { sharedAttached with box_dragging := true }

/-! ### Basic lemmas about the embedded operations -/

theorem plotTime_append (x : ℚ) (p q : DataSource) (hp : p ≠ []) :
    plotTime x (p ++ q) = plotTime x p := by
  cases p with
  | nil => exact absurd rfl hp
  | cons a t => rfl

theorem clearCache_idem (l : PlotCacheLine) :
    clearCache (clearCache l) = clearCache l := rfl

theorem clearCache_data (l : PlotCacheLine) : (clearCache l).data = [] := rfl

theorem updateCache_clearCache (l : PlotCacheLine) (src : DataSource) :
    updateCache (clearCache l) src 0 = updateCache l src 0 := rfl

theorem updateCache_append (l : PlotCacheLine) (p q : DataSource) (hp : p ≠ []) :
    updateCache (updateCache l p 0) (p ++ q) p.length = updateCache l (p ++ q) 0 := by
  have hlen : 0 < p.length := List.length_pos.mpr hp
  simp only [updateCache, List.drop_zero, gt_iff_lt, hlen, if_pos, Nat.lt_irrefl,
    if_neg (Nat.lt_irrefl 0), List.drop_left]
  congr 1
  rw [List.filterMap_append]
  congr 1
  apply List.filterMap_congr
  intro tv _
  rw [plotTime_append tv.1 p q hp]

theorem modeScan_cons_none (src : DataSource) (st : Option FlightMode)
    (time : ℚ) (vs : VehicleState) (rest : List (ℚ × VehicleState))
    (h : vs.mode = none) :
    modeScan src st ((time, vs) :: rest) = modeScan src st rest := by
  obtain ⟨mo, f1, f2⟩ := vs
  cases h
  rfl

theorem modeScan_cons_some (src : DataSource) (st : Option FlightMode)
    (time : ℚ) (vs : VehicleState) (rest : List (ℚ × VehicleState))
    (m : FlightMode) (h : vs.mode = some m) :
    modeScan src st ((time, vs) :: rest)
      = if some m ≠ st then (plotTime time src, m) :: modeScan src (some m) rest
        else modeScan src st rest := by
  obtain ⟨mo, f1, f2⟩ := vs
  cases h
  rfl

theorem scanState_cons_none (st : Option FlightMode) (time : ℚ)
    (vs : VehicleState) (rest : List (ℚ × VehicleState)) (h : vs.mode = none) :
    scanState st ((time, vs) :: rest) = scanState st rest := by
  obtain ⟨mo, f1, f2⟩ := vs
  cases h
  rfl

theorem scanState_cons_some (st : Option FlightMode) (time : ℚ)
    (vs : VehicleState) (rest : List (ℚ × VehicleState)) (m : FlightMode)
    (h : vs.mode = some m) :
    scanState st ((time, vs) :: rest)
      = if some m ≠ st then scanState (some m) rest else scanState st rest := by
  obtain ⟨mo, f1, f2⟩ := vs
  cases h
  rfl

theorem modeScan_append (src : DataSource) (st : Option FlightMode)
    (l1 l2 : List (ℚ × VehicleState)) :
    modeScan src st (l1 ++ l2)
      = modeScan src st l1 ++ modeScan src (scanState st l1) l2 := by
  induction l1 generalizing st with
  | nil => rfl
  | cons a t ih =>
    obtain ⟨time, vs⟩ := a
    cases h : vs.mode with
    | none =>
      rw [List.cons_append, modeScan_cons_none src st time vs (t ++ l2) h,
        modeScan_cons_none src st time vs t h,
        scanState_cons_none st time vs t h, ih]
    | some m =>
      rw [List.cons_append, modeScan_cons_some src st time vs (t ++ l2) m h,
        modeScan_cons_some src st time vs t m h,
        scanState_cons_some st time vs t m h]
      by_cases hm : some m = st
      · rw [if_neg (by simpa using hm), if_neg (by simpa using hm),
          if_neg (by simpa using hm), ih]
      · rw [if_pos (by simpa using hm), if_pos (by simpa using hm),
          if_pos (by simpa using hm), ih, List.cons_append]

theorem scanState_eq_getLast (src : DataSource) (st : Option FlightMode)
    (l : List (ℚ × VehicleState)) :
    scanState st l
      = ((modeScan src st l).getLast?.map (fun e => some e.2)).getD st := by
  induction l generalizing st with
  | nil => rfl
  | cons a t ih =>
    obtain ⟨time, vs⟩ := a
    cases h : vs.mode with
    | none =>
      rw [scanState_cons_none st time vs t h, modeScan_cons_none src st time vs t h,
        ih]
    | some m =>
      rw [scanState_cons_some st time vs t m h, modeScan_cons_some src st time vs t m h]
      by_cases hm : some m = st
      · rw [if_neg (by simpa using hm), if_neg (by simpa using hm), ih]
      · rw [if_pos (by simpa using hm), if_pos (by simpa using hm)]
        cases h2 : modeScan src (some m) t with
        | nil =>
          have hst := ih (some m)
          rw [h2] at hst
          simpa [h2] using hst
        | cons b bs =>
          have hst := ih (some m)
          rw [h2] at hst
          rw [List.getLast?_cons_cons]
          simpa [h2] using hst

theorem modeScan_src_congr (p q : DataSource) (hp : p ≠ [])
    (st : Option FlightMode) (l : List (ℚ × VehicleState)) :
    modeScan (p ++ q) st l = modeScan p st l := by
  induction l generalizing st with
  | nil => rfl
  | cons a t ih =>
    obtain ⟨time, vs⟩ := a
    cases h : vs.mode with
    | none =>
      rw [modeScan_cons_none (p ++ q) st time vs t h,
        modeScan_cons_none p st time vs t h, ih]
    | some m =>
      rw [modeScan_cons_some (p ++ q) st time vs t m h,
        modeScan_cons_some p st time vs t m h]
      by_cases hm : some m = st
      · rw [if_neg (by simpa using hm), if_neg (by simpa using hm), ih]
      · rw [if_pos (by simpa using hm), if_pos (by simpa using hm), ih,
          plotTime_append time p q hp]

theorem option_getD_map_some (o : Option (ℚ × FlightMode)) :
    (o.map (fun e => some e.2)).getD none = o.map Prod.snd := by
  cases o <;> rfl

/-! ### Characterizations of the diff engine -/

theorem computeKeepFirst_none (c : PlotCache) (src : DataSource)
    (hc : c.cachedState = none) : computeKeepFirst c src = 0 := by
  simp [computeKeepFirst, hc]

theorem update_empty (c : PlotCache) :
    updateCachesIfNecessary c []
      = { c with modeTransitions := [], lines := c.lines.map clearCache,
                 cachedState := none } := rfl

theorem update_fingerprint_eq (c : PlotCache) (src : DataSource) (h : src ≠ [])
    (hfp : c.cachedState = some ((src.getLast h).1, src.length)) :
    updateCachesIfNecessary c src = c := by
  have hlen : ¬ src.length = 0 := by simpa [List.length_eq_zero] using h
  unfold updateCachesIfNecessary
  rw [dif_neg hlen]
  exact if_pos hfp.symm

theorem update_rebuild (c : PlotCache) (p : DataSource)
    (hc : c.cachedState = none) (hp : p ≠ []) :
    updateCachesIfNecessary c p
      = { c with lines := c.lines.map (fun l => updateCache l p 0),
                 modeTransitions := modeScan p none p,
                 cachedState := some ((p.getLast hp).1, p.length) } := by
  have hlen : ¬ p.length = 0 := by simpa [List.length_eq_zero] using hp
  unfold updateCachesIfNecessary
  rw [dif_neg hlen]
  rw [if_neg (by simp [hc])]
  simp only [computeKeepFirst_none c p hc, updateModeTransitionCache,
    gt_iff_lt, lt_self_iff_false, if_false, List.drop_zero]

theorem computeKeepFirst_grown (c : PlotCache) (p q : DataSource)
    (hp : p ≠ []) (hq : q ≠ [])
    (hcs : c.cachedState = some ((p.getLast hp).1, p.length)) :
    computeKeepFirst c (p ++ q) = p.length := by
  have h1 : 0 < p.length := List.length_pos.mpr hp
  have h2 : p.length < (p ++ q).length := by
    rw [List.length_append]
    have : 0 < q.length := List.length_pos.mpr hq
    omega
  obtain ⟨ls, ms, rs, cst⟩ := c
  simp only at hcs
  subst hcs
  unfold computeKeepFirst
  simp only [Option.map_some', Option.getD_some]
  rw [dif_pos ⟨h2, h1⟩]
  have hidx : p.length - 1 < p.length := by omega
  have hget1 : (p.getLast hp).1 = ((p ++ q).get ⟨p.length - 1, by omega⟩).1 := by
    rw [List.get_eq_getElem, List.getElem_append_left hidx,
      List.getLast_eq_getElem]
  show (if (p.getLast hp).1 = ((p ++ q).get ⟨p.length - 1, by omega⟩).1
    then p.length else 0) = p.length
  rw [if_pos hget1]

theorem update_append (c : PlotCache) (p q : DataSource)
    (hc : c.cachedState = none) (hp : p ≠ []) (hq : q ≠ []) :
    updateCachesIfNecessary (updateCachesIfNecessary c p) (p ++ q)
      = updateCachesIfNecessary c (p ++ q) := by
  have hpq : p ++ q ≠ [] := fun h => hq (List.append_eq_nil.mp h).2
  have hql : 0 < q.length := List.length_pos.mpr hq
  have hlen : ¬ (p ++ q).length = 0 := by
    simp only [List.length_append]
    have := List.length_pos.mpr hp
    omega
  rw [update_rebuild c p hc hp, update_rebuild c (p ++ q) hc hpq]
  unfold updateCachesIfNecessary
  rw [dif_neg hlen]
  rw [if_neg (by
    simp only [Option.some.injEq, Prod.mk.injEq, List.length_append, not_and]
    intro _
    omega)]
  rw [computeKeepFirst_grown _ p q hp hq rfl]
  have hk : 0 < p.length := List.length_pos.mpr hp
  simp only [updateModeTransitionCache, gt_iff_lt, hk, if_true, if_pos hk,
    List.drop_left, List.map_map]
  congr 1
  · apply List.map_congr_left
    intro l _
    exact updateCache_append l p q hp
  · rw [modeScan_append (p ++ q) none p q, modeScan_src_congr p q hp none p]
    rw [scanState_eq_getLast p none p, option_getD_map_some]

theorem update_twice (c : PlotCache) (hc : c.cachedState = none)
    (p q : DataSource) :
    updateCachesIfNecessary (updateCachesIfNecessary c p) (p ++ q)
      = updateCachesIfNecessary c (p ++ q) := by
  by_cases hp : p = []
  · subst hp
    rw [List.nil_append, update_empty]
    by_cases hq : q = []
    · subst hq
      rw [update_empty, update_empty]
      simp only [List.map_map]
      congr 1
    · rw [update_rebuild _ q rfl hq, update_rebuild c q hc hq]
      simp only [List.map_map]
      congr 1
  · by_cases hq : q = []
    · subst hq
      rw [List.append_nil]
      exact update_fingerprint_eq _ p hp (by rw [update_rebuild c p hc hp])
    · exact update_append c p q hc hp hq

theorem fold_update_eq (cs : List DataSource) : ∀ (p : DataSource) (c : PlotCache),
    c.cachedState = none →
    List.foldl updateCachesIfNecessary (updateCachesIfNecessary c p) (prefixAccum p cs)
      = updateCachesIfNecessary c (p ++ cs.flatten) := by
  induction cs with
  | nil =>
    intro p c _
    simp [prefixAccum]
  | cons ch rest ih =>
    intro p c hc
    simp only [prefixAccum, List.foldl_cons]
    rw [update_twice c hc p ch, ih (p ++ ch) c hc]
    simp [List.append_assoc]

theorem updateCache_lastBounds (l : PlotCacheLine) (src : DataSource) (k : Nat) :
    (updateCache l src k).lastBounds = l.lastBounds := by
  simp only [updateCache]
  split <;> rfl

theorem statsOfList_isSome (v : List Sample) (h : v ≠ []) :
    (statsOfList v).isSome = true := by
  cases v with
  | nil => exact absurd rfl h
  | cons a t => simp [statsOfList, reduceMin, reduceMax]

theorem update_lines_lastBounds (c : PlotCache) (src : DataSource) (i : Nat)
    (l₁ : PlotCacheLine)
    (hl : (updateCachesIfNecessary c src).lines[i]? = some l₁) :
    ∃ l₀, c.lines[i]? = some l₀ ∧ l₁.lastBounds = l₀.lastBounds := by
  unfold updateCachesIfNecessary at hl
  by_cases h0 : src.length = 0
  · rw [dif_pos h0] at hl
    simp only [List.getElem?_map] at hl
    obtain ⟨l₀, h₀, hfl⟩ := Option.map_eq_some'.mp hl
    exact ⟨l₀, h₀, by rw [← hfl]; rfl⟩
  · rw [dif_neg h0] at hl
    simp only [] at hl
    split at hl
    · exact ⟨l₁, hl, rfl⟩
    · simp only [updateModeTransitionCache, apply_ite PlotCache.lines] at hl
      simp only [ite_self] at hl
      simp only [List.getElem?_map] at hl
      obtain ⟨l₀, h₀, hfl⟩ := Option.map_eq_some'.mp hl
      exact ⟨l₀, h₀, by rw [← hfl, updateCache_lastBounds]⟩

/-! ### Claim theorems -/

/-- Claim C2: for every append-only snapshot sequence split into N successive
prefixes, updating a fresh cache incrementally through the N appends
(`update_caches_if_necessary` after each append) produces exactly the same
final line samples and the same final mode-transition list as one full
rebuild over the complete sequence. -/
theorem sam_C2_incremental_equals_rebuild (c : PlotCache)
    (chunks : List DataSource) (hF : FreshCache c) :
    (List.foldl updateCachesIfNecessary c (prefixAccum [] chunks)).lines.map
        PlotCacheLine.data
      = (updateCachesIfNecessary c chunks.flatten).lines.map PlotCacheLine.data
    ∧ (List.foldl updateCachesIfNecessary c (prefixAccum [] chunks)).modeTransitions
      = (updateCachesIfNecessary c chunks.flatten).modeTransitions := by
  obtain ⟨hcs, hmt, hld⟩ := hF
  cases chunks with
  | nil =>
    rw [prefixAccum, List.foldl_nil, List.flatten_nil, update_empty]
    constructor
    · rw [List.map_map]
      apply List.map_congr_left
      intro l hl
      show l.data = (clearCache l).data
      rw [clearCache_data, hld l hl]
    · exact hmt
  | cons ch rest =>
    have heq : List.foldl updateCachesIfNecessary c (prefixAccum [] (ch :: rest))
        = updateCachesIfNecessary c (ch :: rest).flatten := by
      rw [prefixAccum, List.foldl_cons, fold_update_eq rest ([] ++ ch) c hcs]
      simp
    rw [heq]
    exact ⟨rfl, rfl⟩

/-- Witness for C2 at a fresh single-line cache and two concrete chunks. -/
theorem sam_C2_witness :
    FreshCache cacheAlt ∧
    ((List.foldl updateCachesIfNecessary cacheAlt (prefixAccum [] chunksW)).lines.map
        PlotCacheLine.data
      = (updateCachesIfNecessary cacheAlt chunksW.flatten).lines.map PlotCacheLine.data
    ∧ (List.foldl updateCachesIfNecessary cacheAlt (prefixAccum [] chunksW)).modeTransitions
      = (updateCachesIfNecessary cacheAlt chunksW.flatten).modeTransitions) :=
  ⟨by simp [FreshCache, cacheAlt, addLine, PlotCache.new, PlotCacheLine.new],
   sam_C2_incremental_equals_rebuild cacheAlt chunksW
     (by simp [FreshCache, cacheAlt, addLine, PlotCache.new, PlotCacheLine.new])⟩

/-- Claim C6: when the source's current `(lastSampleTime, sampleCount)`
fingerprint equals the remembered one, the diff engine performs zero
mutation: the whole cache (line data, views, statistics, transitions and
fingerprint) is returned unchanged. -/
theorem sam_C6_idle_diff_noop (c : PlotCache) (src : DataSource) (h : src ≠ [])
    (hfp : c.cachedState = some ((src.getLast h).1, src.length)) :
    updateCachesIfNecessary c src = c :=
  update_fingerprint_eq c src h hfp

/-- Witness for C6 at a concrete cache whose fingerprint matches the source. -/
theorem sam_C6_witness :
    (srcTwo ≠ []) ∧ updateCachesIfNecessary cacheC6 srcTwo = cacheC6 :=
  ⟨by simp [srcTwo],
   sam_C6_idle_diff_noop cacheC6 srcTwo (by simp [srcTwo]) rfl⟩

/-- Claim C8: from the Attached state, a zoom gesture divides the view width
by the zoom factor and sets the one-shot reset flag; the next idle redraw
honours the flag, clears it in the same pass, and leaves the state Attached. -/
theorem sam_C8_zoom_reattach (s : SharedPlotState) (z : ℚ × ℚ) (cr : Bool)
    (h : s.attached_to_edge = true) :
    (process_zoom s z).view_width = s.view_width / z.1 ∧
    (process_zoom s z).reset_on_next_draw = true ∧
    (idleRedraw cr (process_zoom s z)).2.attached_to_edge = true ∧
    (idleRedraw cr (process_zoom s z)).2.reset_on_next_draw = false := by
  refine ⟨rfl, by simp [process_zoom, h], ?_, ?_⟩ <;>
    simp [idleRedraw, drawResetStep, process_zoom, h, process_drag_released,
      process_box_dragging]

/-- Witness for C8 at the concrete attached state and zoom factor 2. -/
theorem sam_C8_witness :
    sharedAttached.attached_to_edge = true ∧
    ((process_zoom sharedAttached (2, 1)).view_width
        = sharedAttached.view_width / 2 ∧
     (process_zoom sharedAttached (2, 1)).reset_on_next_draw = true ∧
     (idleRedraw false (process_zoom sharedAttached (2, 1))).2.attached_to_edge = true ∧
     (idleRedraw false (process_zoom sharedAttached (2, 1))).2.reset_on_next_draw = false) :=
  ⟨rfl, sam_C8_zoom_reattach sharedAttached (2, 1) false rfl⟩

/-- Claim C10: `box_dragging`, once set, survives `process_box_dragging(false)`
calls and idle redraws; the only operation clearing it is
`process_drag_released(true)`, which also detaches; a release without an
ongoing box drag changes nothing. -/
theorem sam_C10_box_drag_latch :
    (∀ (s : SharedPlotState) (b : Bool), s.box_dragging = true →
        (process_box_dragging s b).box_dragging = true) ∧
    (∀ (s : SharedPlotState) (n : Nat), s.box_dragging = true →
        ((fun s => process_box_dragging s false)^[n] s).box_dragging = true) ∧
    (∀ (s : SharedPlotState) (cr : Bool), s.box_dragging = true →
        (idleRedraw cr s).2.box_dragging = true) ∧
    (∀ s : SharedPlotState, s.box_dragging = true →
        (process_drag_released s true).box_dragging = false ∧
        (process_drag_released s true).attached_to_edge = false) ∧
    (∀ (s : SharedPlotState) (r : Bool), s.box_dragging = false →
        process_drag_released s r = s) ∧
    (∀ s : SharedPlotState, process_drag_released s false = s) ∧
    (∀ (s : SharedPlotState) (z : ℚ × ℚ),
        (process_zoom s z).box_dragging = s.box_dragging) := by
  refine ⟨?_, ?_, ?_, ?_, ?_, ?_, ?_⟩
  · intro s b h
    simp [process_box_dragging, h]
  · intro s n
    induction n generalizing s with
    | zero => intro h; simpa using h
    | succ k ih =>
      intro h
      rw [Function.iterate_succ_apply]
      exact ih _ (by simp [process_box_dragging, h])
  · intro s cr h
    simp [idleRedraw, drawResetStep, process_drag_released, process_box_dragging]
    split <;> simp [h]
  · intro s h
    simp [process_drag_released, h]
  · intro s r h
    simp [process_drag_released, h]
  · intro s
    simp [process_drag_released]
  · intro s z
    simp [process_zoom]

/-- Witness for C10 at a concrete state with an ongoing box drag. -/
theorem sam_C10_witness :
    sharedBoxDrag.box_dragging = true ∧
    (process_box_dragging sharedBoxDrag false).box_dragging = true ∧
    ((fun s => process_box_dragging s false)^[5] sharedBoxDrag).box_dragging = true ∧
    (process_drag_released sharedBoxDrag true).box_dragging = false ∧
    (process_drag_released sharedBoxDrag true).attached_to_edge = false :=
  ⟨rfl, sam_C10_box_drag_latch.1 sharedBoxDrag false rfl,
   sam_C10_box_drag_latch.2.1 sharedBoxDrag 5 rfl,
   (sam_C10_box_drag_latch.2.2.2.1 sharedBoxDrag rfl).1,
   (sam_C10_box_drag_latch.2.2.2.1 sharedBoxDrag rfl).2⟩

/-- Claim C7: the TransitionTracker appends a `(time, mode)` entry exactly
when the extracted mode differs from the last known mode (the scan equals the
spec's dedup of the extracted event stream, the initial unknown state counting
as different from any first value); in particular pushing modes
`[A, A, B, B, C]` at `t = 0..4` into a fresh cache yields
`[(0,A), (2,B), (4,C)]`. -/
theorem sam_C7_mode_transitions :
    (∀ (src : DataSource) (st : Option FlightMode) (l : List (ℚ × VehicleState)),
        modeScan src st l
          = specTransitions st (l.filterMap
              (fun tv => tv.2.mode.map (fun m => (plotTime tv.1 src, m))))) ∧
    (updateCachesIfNecessary cacheAlt srcModes).modeTransitions
      = [(0, FlightMode.Idle), (2, FlightMode.Flight), (4, FlightMode.Landed)] := by
  constructor
  · intro src st l
    induction l generalizing st with
    | nil => rfl
    | cons a t ih =>
      obtain ⟨time, vs⟩ := a
      cases h : vs.mode with
      | none =>
        rw [modeScan_cons_none src st time vs t h]
        simp only [List.filterMap_cons, h, Option.map_none']
        exact ih st
      | some m =>
        rw [modeScan_cons_some src st time vs t m h]
        simp only [List.filterMap_cons, h, Option.map_some', specTransitions]
        by_cases hm : some m = st
        · rw [if_neg (by simpa using hm), if_neg (by simpa using hm), ih st]
        · rw [if_pos (by simpa using hm), if_pos (by simpa using hm), ih (some m)]
  · rw [update_rebuild cacheAlt srcModes rfl (by simp [srcModes])]
    show modeScan srcModes none srcModes = _
    norm_num [modeScan, srcModes, vsMode, plotTime, max_eq_left]
    decide

/-- Claim C9: the core operations are total — the window query's indices are
always a valid slice range, the statistics computation never divides by zero
nor reduces an empty list, and the diff engine's element accesses stay within
the source's length. -/
theorem sam_C9_totality :
    (∀ (data : List Sample) (b : PlotBounds), data ≠ [] →
        (windowIndices data b).1 ≤ (windowIndices data b).2 ∧
        (windowIndices data b).2 < data.length) ∧
    (∀ v : List Sample, v ≠ [] →
        (statsOfList v).isSome = true ∧ ((v.length : ℚ) ≠ 0)) ∧
    (∀ (c : PlotCache) (src : DataSource),
        computeKeepFirst c src ≤ src.length ∧
        (0 < computeKeepFirst c src → computeKeepFirst c src - 1 < src.length)) := by
  refine ⟨?_, ?_, ?_⟩
  · intro data b hne
    have hlen : 0 < data.length := List.length_pos.mpr hne
    have h1 : partitionPoint data (fun d => decide (d.1 < b.min.1)) ≤ data.length :=
      (List.takeWhile_sublist _).length_le
    have h2 : partitionPoint
        (data.drop (partitionPoint data (fun d => decide (d.1 < b.min.1))))
        (fun d => decide (d.1 < b.max.1))
          ≤ data.length - partitionPoint data (fun d => decide (d.1 < b.min.1)) := by
      have hs : _ ≤ (data.drop (partitionPoint data (fun d => decide (d.1 < b.min.1)))).length :=
        (List.takeWhile_sublist (fun d => decide (d.1 < b.max.1))).length_le
      rwa [List.length_drop] at hs
    simp only [windowIndices]
    omega
  · intro v hne
    cases v with
    | nil => exact absurd rfl hne
    | cons a t =>
      constructor
      · simp [statsOfList, reduceMin, reduceMax]
      · have : (a :: t).length ≠ 0 := by simp
        exact_mod_cast Nat.cast_ne_zero.mpr this
  · intro c src
    obtain ⟨ls, ms, rs, cst⟩ := c
    cases cst with
    | none => simp [computeKeepFirst]
    | some pr =>
      obtain ⟨t, n⟩ := pr
      unfold computeKeepFirst
      simp only [Option.map_some', Option.getD_some]
      by_cases h : n < src.length ∧ 0 < n
      · rw [dif_pos h]
        have hidx : n - 1 < src.length := by omega
        show (if t = (src.get ⟨n - 1, hidx⟩).1 then n else 0) ≤ src.length ∧
          (0 < (if t = (src.get ⟨n - 1, hidx⟩).1 then n else 0) →
            (if t = (src.get ⟨n - 1, hidx⟩).1 then n else 0) - 1 < src.length)
        split
        · exact ⟨by omega, fun _ => by omega⟩
        · exact ⟨by omega, fun hpos => by omega⟩
      · rw [dif_neg h]
        omega

/-- Witness for C9 at concrete data, bounds, view and cache. -/
theorem sam_C9_witness :
    ((([((0:ℚ), (0:ℚ)), ((2:ℚ), (20:ℚ))]) : List Sample) ≠ []) ∧
    ((windowIndices [((0:ℚ), (0:ℚ)), ((2:ℚ), (20:ℚ))] bC1).1
        ≤ (windowIndices [((0:ℚ), (0:ℚ)), ((2:ℚ), (20:ℚ))] bC1).2 ∧
      (windowIndices [((0:ℚ), (0:ℚ)), ((2:ℚ), (20:ℚ))] bC1).2 < 2) ∧
    ((statsOfList [((0:ℚ), (0:ℚ)), ((2:ℚ), (20:ℚ))]).isSome = true ∧
      (((2:ℕ) : ℚ) ≠ 0)) ∧
    (computeKeepFirst cacheC6 srcTwo ≤ srcTwo.length ∧
      (0 < computeKeepFirst cacheC6 srcTwo →
        computeKeepFirst cacheC6 srcTwo - 1 < srcTwo.length)) :=
  ⟨by simp,
   sam_C9_totality.1 [((0:ℚ), (0:ℚ)), ((2:ℚ), (20:ℚ))] bC1 (by simp),
   sam_C9_totality.2.1 [((0:ℚ), (0:ℚ)), ((2:ℚ), (20:ℚ))] (by simp),
   sam_C9_totality.2.2 cacheC6 srcTwo⟩

/-- Claim C1 (code bug): with four cached samples at `t = 0, 2, 4, 6` and
query bounds `[3, 5]` (time range exceeded on both sides), the view returned
by `data_for_bounds` is `[(2,20), (4,40)]`: it contains a sample with time
≤ xmin, but no sample with time ≥ xmax even though the sample at `t = 6`
lies above xmax — the exclusive slice end is clamped to `len - 1`
(`plot.rs:86`), so the final sample can never enter any view, defeating the
documented one-sample padding at the upper edge. -/
theorem sam_C1_padding_code_bug :
    (dataForBounds lineC1 bC1 srcC1).1 = [(2, 20), (4, 40)] ∧
    ((0 : ℚ), (0 : ℚ)) ∈ lineC1.data ∧ (0 : ℚ) ≤ bC1.min.1 ∧
    ((6 : ℚ), (60 : ℚ)) ∈ lineC1.data ∧ bC1.max.1 < 6 ∧
    (∀ d ∈ (dataForBounds lineC1 bC1 srcC1).1, d.1 < bC1.max.1) := by
  have hv : (dataForBounds lineC1 bC1 srcC1).1 = [(2, 20), (4, 40)] := by
    norm_num +decide [dataForBounds, windowSlice, windowIndices, partitionPoint,
      lineC1, bC1, srcC1, List.takeWhile, PlotCacheLine.new]
  refine ⟨hv, ?_, ?_, ?_, ?_, ?_⟩
  · simp [lineC1, PlotCacheLine.new]
  · norm_num [bC1]
  · simp [lineC1, PlotCacheLine.new]
  · norm_num [bC1]
  · rw [hv]
    intro d hd
    rcases (by simpa using hd : d = ((2 : ℚ), (20 : ℚ)) ∨ d = (4, 40)) with
      rfl | rfl <;> norm_num [bC1]

set_option maxHeartbeats 1600000 in
/-- Claim C3 (code bug): a cache holding samples and a cached window view is
emptied by an update (empty source); the following window query returns the
empty view and resets the stats field, but a subsequent `stats()` recomputes
from the stale `last_view` (which `clear_cache`, `plot.rs:64`–`66`, and the
empty branch of `data_for_bounds`, `plot.rs:73`–`77`, both leave in place) and
returns the pre-clear statistics instead of the absence the claim requires. -/
theorem sam_C3_emptied_stale_stats :
    (plotLines (plotLines cacheAlt bWide true srcTwo).2 bWide true []).1
      = [([], some (1, 0, 1, 1))] ∧
    (plotLines (plotLines cacheAlt bWide true srcTwo).2 bWide true []).2.lines.map
        PlotCacheLine.data = [[]] := by
  have h1 : updateCachesIfNecessary cacheAlt srcTwo
      = { lines := [{ PlotCacheLine.new "altitude" 0 cbAlt with data := [(0, 1), (1, 2)] }],
          modeTransitions := [], resetOnNextDraw := false, cachedState := some (1, 2) } := by
    rw [update_rebuild cacheAlt srcTwo rfl (by simp [srcTwo])]
    norm_num [cacheAlt, addLine, PlotCache.new, updateCache, srcTwo, cbAlt, vsAlt,
      plotTime, modeScan, max_eq_left, PlotCacheLine.new, List.filterMap_cons]
  have h2 : plotLines cacheAlt bWide true srcTwo
      = ([([(0, 1)], some (1, 0, 1, 1))],
         { lines := [{ PlotCacheLine.new "altitude" 0 cbAlt with
              data := [(0, 1), (1, 2)], stats := some (1, 0, 1, 1),
              lastBounds := some bWide, lastView := [(0, 1)] }],
           modeTransitions := [], resetOnNextDraw := false, cachedState := some (1, 2) }) := by
    simp only [plotLines, h1]
    norm_num +decide [dataForBounds, srcTwo, windowSlice, windowIndices, partitionPoint,
      bWide, List.takeWhile, lineStats, statsOfList, reduceMin, reduceMax,
      PlotCacheLine.new]
  rw [h2]
  simp only [plotLines, update_empty]
  norm_num +decide [dataForBounds, lineStats, statsOfList, reduceMin, reduceMax,
    clearCache, PlotCacheLine.new]

/-- Counterexample to C4: `clear_cache` only truncates `data`; on a line that
had a cached view and statistics, the view and the statistics survive
`clear()`, and a `stats()` call right after `clear()` returns the values
computed from pre-clear data. -/
theorem sam_C4_counterexample :
    (clearCache lineC4).data = [] ∧
    (clearCache lineC4).lastView = [(0, 1)] ∧
    (clearCache lineC4).stats = some (1, 0, 1, 1) ∧
    (lineStats (clearCache lineC4)).1 = some (1, 0, 1, 1) := by
  refine ⟨rfl, rfl, rfl, ?_⟩
  simp [lineStats, clearCache, lineC4, PlotCacheLine.new]

/-- Claim C4 as amended: after `clear()` the cached Samples are empty and the
extraction callback (with name and color) is left intact and usable by later
updates; the WindowView, the cached bounds and the Statistics are left
unchanged by `clear()` itself, not dropped. -/
theorem sam_C4_clear_amended (l : PlotCacheLine) :
    (clearCache l).data = [] ∧
    (clearCache l).callback = l.callback ∧
    (clearCache l).name = l.name ∧
    (clearCache l).color = l.color ∧
    (clearCache l).lastView = l.lastView ∧
    (clearCache l).lastBounds = l.lastBounds ∧
    (clearCache l).stats = l.stats ∧
    (∀ src : DataSource,
      (updateCache (clearCache l) src 0).data
        = src.filterMap (fun tv => (l.callback tv.2).map
            (fun y => (plotTime tv.1 src, y)))) :=
  ⟨rfl, rfl, rfl, rfl, rfl, rfl, rfl, fun src => by simp [updateCache, clearCache]⟩

set_option maxHeartbeats 1600000 in
/-- Counterexample to C5: on a second redraw whose bounds equal the cached
bounds, the appended in-window sample `(2, 5)` reaches the line's data but
not the reused cached view, so the returned statistics are the previous
redraw's `(1, 0, 1, 1)` and not the statistics `(2, 1, 1, 3)` of the current
window of the just-updated data. -/
theorem sam_C5_counterexample :
    (plotLines (plotLines cacheAlt bC5 true srcC5a).2 bC5 true srcC5b).1
      = [([(0, 1)], some (1, 0, 1, 1))] ∧
    (plotLines (plotLines cacheAlt bC5 true srcC5a).2 bC5 true srcC5b).2.lines.map
        PlotCacheLine.data = [[(0, 1), (1, 3), (2, 5)]] ∧
    statsOfList (windowSlice [(0, 1), (1, 3), (2, 5)] bC5) = some (2, 1, 1, 3) ∧
    ((2 : ℚ), (1 : ℚ), (1 : ℚ), (3 : ℚ)) ≠ ((1 : ℚ), (0 : ℚ), (1 : ℚ), (1 : ℚ)) := by
  have h1 : updateCachesIfNecessary cacheAlt srcC5a
      = { lines := [{ PlotCacheLine.new "altitude" 0 cbAlt with data := [(0, 1), (1, 3)] }],
          modeTransitions := [], resetOnNextDraw := false, cachedState := some (1, 2) } := by
    rw [update_rebuild cacheAlt srcC5a rfl (by simp [srcC5a])]
    norm_num [cacheAlt, addLine, PlotCache.new, updateCache, srcC5a, cbAlt, vsAlt,
      plotTime, modeScan, max_eq_left, PlotCacheLine.new, List.filterMap_cons]
  have h2 : plotLines cacheAlt bC5 true srcC5a
      = ([([(0, 1)], some (1, 0, 1, 1))],
         { lines := [{ PlotCacheLine.new "altitude" 0 cbAlt with
              data := [(0, 1), (1, 3)], stats := some (1, 0, 1, 1),
              lastBounds := some bC5, lastView := [(0, 1)] }],
           modeTransitions := [], resetOnNextDraw := false, cachedState := some (1, 2) }) := by
    simp only [plotLines, h1]
    norm_num +decide [dataForBounds, srcC5a, windowSlice, windowIndices, partitionPoint,
      bC5, List.takeWhile, lineStats, statsOfList, reduceMin, reduceMax,
      PlotCacheLine.new]
  rw [h2]
  have h3 : updateCachesIfNecessary
      { lines := [{ PlotCacheLine.new "altitude" 0 cbAlt with
            data := [(0, 1), (1, 3)], stats := some (1, 0, 1, 1),
            lastBounds := some bC5, lastView := [(0, 1)] }],
        modeTransitions := [], resetOnNextDraw := false, cachedState := some (1, 2) }
      srcC5b
      = { lines := [{ PlotCacheLine.new "altitude" 0 cbAlt with
            data := [(0, 1), (1, 3), (2, 5)], stats := some (1, 0, 1, 1),
            lastBounds := some bC5, lastView := [(0, 1)] }],
          modeTransitions := [], resetOnNextDraw := false, cachedState := some (2, 3) } := by
    have hkf : computeKeepFirst
        { lines := [{ PlotCacheLine.new "altitude" 0 cbAlt with
              data := [(0, 1), (1, 3)], stats := some (1, 0, 1, 1),
              lastBounds := some bC5, lastView := [(0, 1)] }],
          modeTransitions := [], resetOnNextDraw := false, cachedState := some (1, 2) }
        srcC5b = 2 := by
      have hg := computeKeepFirst_grown
        { lines := [{ PlotCacheLine.new "altitude" 0 cbAlt with
              data := [(0, 1), (1, 3)], stats := some (1, 0, 1, 1),
              lastBounds := some bC5, lastView := [(0, 1)] }],
          modeTransitions := [], resetOnNextDraw := false, cachedState := some (1, 2) }
        srcC5a [(2, vsAlt 5)] (by simp [srcC5a]) (by simp) rfl
      rw [show srcC5b = srcC5a ++ [(2, vsAlt 5)] from rfl, hg]
      simp [srcC5a]
    unfold updateCachesIfNecessary
    rw [dif_neg (by simp [srcC5b, srcC5a])]
    rw [if_neg (by decide)]
    rw [hkf]
    norm_num +decide [updateCache, updateModeTransitionCache, modeScan, srcC5b, srcC5a,
      cbAlt, vsAlt, plotTime, max_eq_left, PlotCacheLine.new, List.filterMap_cons]
  simp only [plotLines, h3]
  refine ⟨?_, ?_, ?_, by norm_num⟩
  · norm_num +decide [dataForBounds, srcC5b, srcC5a, lineStats, PlotCacheLine.new]
  · norm_num +decide [dataForBounds, srcC5b, srcC5a, lineStats, PlotCacheLine.new]
  · norm_num +decide [statsOfList, reduceMin, reduceMax, windowSlice, windowIndices,
      partitionPoint, bC5, List.takeWhile]

/-- Claim C5 as amended: within a redraw, `plot_lines` runs the diff engine
first, then each line's window query, then the statistics, and whenever the
queried bounds differ from a line's cached bounds the returned statistics are
exactly the statistics of the window of that line's just-updated data
(including samples appended in this redraw); with unchanged bounds the
previous cached view is reused and this redraw's appends may be missing. -/
theorem sam_C5_stats_follow_update (c : PlotCache) (src : DataSource)
    (b : PlotBounds) (i : Nat) (l₁ : PlotCacheLine)
    (hsrc : src ≠ [])
    (hb : ∀ l ∈ c.lines, l.lastBounds ≠ some b)
    (hl : (updateCachesIfNecessary c src).lines[i]? = some l₁)
    (hdata : l₁.data ≠ []) :
    ((plotLines c b true src).1[i]?).map Prod.snd
      = some (statsOfList (windowSlice l₁.data b)) := by
  obtain ⟨l₀, hl₀, hlb⟩ := update_lines_lastBounds c src i l₁ hl
  have hmem : l₀ ∈ c.lines := by
    obtain ⟨hi, rfl⟩ := List.getElem?_eq_some.mp hl₀
    exact List.getElem_mem hi
  have hlb1 : ¬ l₁.lastBounds = some b := by
    rw [hlb]
    exact hb l₀ hmem
  simp only [plotLines, List.map_map, List.getElem?_map, hl, Option.map_some',
    Function.comp_apply]
  simp only [dataForBounds, lineStats, hsrc, hdata, hlb1, List.length_eq_zero,
    List.isEmpty_iff, or_self, if_false, ite_false, ite_not, Option.isNone_none,
    true_and, if_true, ite_true, false_or, or_false]
  by_cases hv : windowSlice l₁.data b = []
  · rw [hv]
    simp [statsOfList, reduceMin, reduceMax]
  · have hvl : 0 < (windowSlice l₁.data b).length := List.length_pos.mpr hv
    obtain ⟨s, hs⟩ := Option.isSome_iff_exists.mp (statsOfList_isSome _ hv)
    rw [if_pos hvl, hs]

/-- Witness for the amended C5 at a fresh cache, a one-snapshot source and
fresh bounds. -/
theorem sam_C5_witness :
    (srcOne ≠ []) ∧
    (∀ l ∈ cacheAlt.lines, l.lastBounds ≠ some bC5) ∧
    ((updateCachesIfNecessary cacheAlt srcOne).lines[0]?
      = some { PlotCacheLine.new "altitude" 0 cbAlt with data := [(0, 1)] }) ∧
    (({ PlotCacheLine.new "altitude" 0 cbAlt with
        data := [(0, 1)] } : PlotCacheLine).data ≠ []) ∧
    ((plotLines cacheAlt bC5 true srcOne).1[0]?).map Prod.snd
      = some (statsOfList (windowSlice
          ({ PlotCacheLine.new "altitude" 0 cbAlt with
             data := [(0, 1)] } : PlotCacheLine).data bC5)) :=
  ⟨by simp [srcOne],
   by simp [cacheAlt, addLine, PlotCache.new, PlotCacheLine.new],
   by simp [updateCachesIfNecessary, computeKeepFirst, updateModeTransitionCache,
      modeScan, updateCache, cacheAlt, addLine, PlotCache.new, PlotCacheLine.new,
      srcOne, vsAlt, cbAlt, plotTime, List.filterMap_cons],
   by simp,
   sam_C5_stats_follow_update cacheAlt srcOne bC5 0
     { PlotCacheLine.new "altitude" 0 cbAlt with data := [(0, 1)] }
     (by simp [srcOne])
     (by simp [cacheAlt, addLine, PlotCache.new, PlotCacheLine.new])
     (by simp [updateCachesIfNecessary, computeKeepFirst, updateModeTransitionCache,
        modeScan, updateCache, cacheAlt, addLine, PlotCache.new, PlotCacheLine.new,
        srcOne, vsAlt, cbAlt, plotTime, List.filterMap_cons])
     (by simp)⟩

end Sam
